import Mathlib

/-!
Verification development for the get-cheap-flight-agent repository.

The repository has two Python source files:
  * `book.py` — a standalone Kayak flight-search driver: interactive
    date entry (`main`), and `book_flight`, which delegates to an external
    browser agent and wraps the outcome in a result dictionary.
  * `flight_book_chat.py` — a conversational layer: `convert_date_format`
    (MM/DD → YYYY-MM-DD), `search_flights` (argument normalization and
    dispatch to `book_flight`) and `FlightBookingChatbot.process_message`
    (the per-turn transcript logic).

This file gives a shallow embedding of those functions.  External
collaborators (the LLM and the browser agent) are passed in as explicit
values: the browser agent outcome as `Except String String` (exception
message or free-text report), and the LLM replies as explicit parameters.
Python exceptions are modelled with `Except`; the distinct Python raise
sites (`ValueError` from int()/unpacking versus from the `datetime`
constructor) are recorded as distinct error tags so that the spec's error
taxonomy can be compared with the code's behaviour.
-/

/-! ## Calendar basics (semantics of Python `datetime` construction) -/

/-- Gregorian leap-year test, as implemented by Python's `calendar`/`datetime`. -/
def isLeapYear (y : Nat) : Bool :=
  y % 4 == 0 && (y % 100 != 0 || y % 400 == 0)

/-- Days in a month, as enforced by `datetime(year, month, day)`. -/
def daysInMonth (y : Nat) (m : Nat) : Nat :=
  match m with
  | 1 => 31 | 2 => if isLeapYear y then 29 else 28 | 3 => 31
  | 4 => 30 | 5 => 31 | 6 => 30 | 7 => 31 | 8 => 31
  | 9 => 30 | 10 => 31 | 11 => 30 | 12 => 31
  | _ => 0

/-- Whether `datetime(y, m, d)` succeeds, for possibly-negative parsed
month/day components (Python `int()` accepts signs). -/
def validMD (y : Nat) (m d : Int) : Bool :=
  decide (1 ≤ m ∧ m ≤ 12 ∧ 1 ≤ d ∧ d ≤ (daysInMonth y m.toNat : Int))

/-- Python `datetime` comparison: lexicographic on
(year, month, day, time-of-day).  `t` is the time of day (0 = midnight);
`datetime(y, m, d)` has `t = 0`, while `datetime.now()` has the current
clock time. -/
def dtLTb (y1 m1 d1 t1 y2 m2 d2 t2 : Nat) : Bool :=
  decide (y1 < y2 ∨ (y1 = y2 ∧ (m1 < m2 ∨ (m1 = m2 ∧
    (d1 < d2 ∨ (d1 = d2 ∧ t1 < t2))))))

/-- Date-only (calendar-day) strict comparison. -/
def dateLTb (y1 m1 d1 y2 m2 d2 : Nat) : Bool :=
  decide (y1 < y2 ∨ (y1 = y2 ∧ (m1 < m2 ∨ (m1 = m2 ∧ d1 < d2))))

/-- Date-only non-strict comparison. -/
def dateLEb (y1 m1 d1 y2 m2 d2 : Nat) : Bool :=
  dateLTb y1 m1 d1 y2 m2 d2 || decide (y1 = y2 ∧ m1 = m2 ∧ d1 = d2)

/-- The value of `datetime.now()`: a calendar date plus the time of day
(`tod`, 0 meaning exactly midnight). -/
structure PyDateTime where
  year : Nat
  month : Nat
  day : Nat
  tod : Nat
deriving DecidableEq

/-! ## String parsing semantics (Python `str.split`, `int()`, `str.strip`) -/

/-- Python `str.split(sep)` for a single-character separator, on the
character list of the string.  `"".split('/') = ['']`,
`"a/b/".split('/') = ['a','b','']`. -/
def splitOnChar (sep : Char) : List Char → List (List Char)
  | [] => [[]]
  | c :: rest =>
    match splitOnChar sep rest with
    | [] => [[c]]
    | h :: t => if c = sep then [] :: h :: t else (c :: h) :: t

/-- Digit run accepted by Python `int()` after the optional sign: ASCII
digits with single `_` separators allowed between digits. -/
def pyDigitsAux : List Char → Nat → Option Nat
  | [], acc => some acc
  | '_' :: c :: rest, acc =>
      if c.isDigit then pyDigitsAux rest (acc * 10 + (c.toNat - 48)) else none
  | c :: rest, acc =>
      if c.isDigit then pyDigitsAux rest (acc * 10 + (c.toNat - 48)) else none

/-- Nonempty digit run (first character must be a digit). -/
def pyDigits : List Char → Option Nat
  | [] => none
  | c :: rest => if c.isDigit then pyDigitsAux rest (c.toNat - 48) else none

/-- Python `str.strip()`: drop whitespace from both ends. -/
def stripWs (cs : List Char) : List Char :=
  ((cs.dropWhile Char.isWhitespace).reverse.dropWhile Char.isWhitespace).reverse

/-- Python `int(s)`: optional surrounding whitespace, optional sign,
then a digit run.  Returns `none` where Python raises `ValueError`. -/
def pyIntParseL (cs : List Char) : Option Int :=
  match stripWs cs with
  | '+' :: rest => (pyDigits rest).map Int.ofNat
  | '-' :: rest => (pyDigits rest).map (fun n => -(n : Int))
  | rest => (pyDigits rest).map Int.ofNat

/-- `month, day = map(int, s.split('/'))`: succeeds exactly when the split
yields two components and both parse as Python ints; any other shape
(no separator, three or more components, non-numeric text) raises
`ValueError` at this statement, modelled as `none`. -/
def parseMMDDL (cs : List Char) : Option (Int × Int) :=
  match splitOnChar '/' cs with
  | [a, b] =>
    match pyIntParseL a, pyIntParseL b with
    | some m, some d => some (m, d)
    | _, _ => none
  | _ => none

/-- String-level wrapper for `parseMMDDL`. -/
def parseMMDD (s : String) : Option (Int × Int) := parseMMDDL s.data

/-- Python `f"{n:02d}"` for the nonnegative values that reach formatting. -/
def pad2 (n : Nat) : String := if n < 10 then "0" ++ toString n else toString n

/-- `f"{year}-{month:02d}-{day:02d}"`. -/
def isoStr (y m d : Nat) : String :=
  toString y ++ "-" ++ pad2 m ++ "-" ++ pad2 d

/-- Canonical two-digit rendering of a short-form MM/DD input. -/
def mmddRender (m d : Nat) : String := pad2 m ++ "/" ++ pad2 d

/-- All-digit run to value (used by `strptime` semantics). -/
def digitsToNat (cs : List Char) : Nat :=
  cs.foldl (fun a c => a * 10 + (c.toNat - 48)) 0

/-- `datetime.strptime(s, "%Y-%m-%d")`: three dash-separated all-digit
fields (`%Y` 1–4 digits, `%m`/`%d` 1–2 digits) forming a valid calendar
date with year ≥ 1.  `none` where Python raises `ValueError`. -/
def strptimeISO (s : String) : Option (Nat × Nat × Nat) :=
  match splitOnChar '-' s.data with
  | [ys, ms, ds] =>
    if 1 ≤ ys.length ∧ ys.length ≤ 4 ∧ ys.all Char.isDigit
        ∧ 1 ≤ ms.length ∧ ms.length ≤ 2 ∧ ms.all Char.isDigit
        ∧ 1 ≤ ds.length ∧ ds.length ≤ 2 ∧ ds.all Char.isDigit then
      let y := digitsToNat ys
      let m := digitsToNat ms
      let d := digitsToNat ds
      if 1 ≤ y ∧ validMD y (m : Int) (d : Int) then some (y, m, d) else none
    else none
  | _ => none

/-! ## Date Normalizer: `convert_date_format` (flight_book_chat.py 36–51) -/

/-- Both tags are a Python `ValueError`; the tag records the raise site:
`invalidFormat` for the `map(int, split('/'))` statement (no separator,
wrong component count, or non-numeric component), `invalidCalendar` for
the `datetime(current_year, month, day)` constructor. -/
inductive DateErr
  | invalidFormat
  | invalidCalendar
deriving DecidableEq

/-- `convert_date_format(date_str)` from flight_book_chat.py:
empty (falsy) input returns `None`; otherwise parse MM/DD, build
`datetime(current_year, month, day)`, bump to next year when that
datetime is strictly before `datetime.now()`, and format.  Errors model
the uncaught `ValueError`s. -/
def convert_date_format (now : PyDateTime) (date_str : String) :
    Except DateErr (Option String) :=
  if date_str = "" then .ok none
  else
    match parseMMDD date_str with
    | none => .error .invalidFormat
    | some (m, d) =>
      if validMD now.year m d then
        let mn := m.toNat
        let dn := d.toNat
        let year :=
          if dtLTb now.year mn dn 0 now.year now.month now.day now.tod
          then now.year + 1 else now.year
        .ok (some (isoStr year mn dn))
      else .error .invalidCalendar

/-! ## Standalone date-entry loops (book.py main, 201–257) -/

/-- The three retry messages of the book.py input loops:
`invalidFormat` ↔ "Invalid format. Please use MM/DD format...",
`invalidDate` ↔ "Invalid date. Please enter a valid date..." (the generic
`except ValueError` handler), `returnBeforeDeparture` ↔ "Return date must
be after departure date." -/
inductive LoopErr
  | invalidFormat
  | invalidDate
  | returnBeforeDeparture
deriving DecidableEq

/-- One iteration of the departure-date entry loop (book.py 201–222).
The raw console line is `.strip()`ed; a missing `/` prints the format
message; `ValueError` from parsing, from `datetime(current_year, month,
day)`, or from the final `strptime` re-validation of the built string
prints the date message; otherwise the loop breaks with the chosen
(year, month, day). -/
def departure_step (now : PyDateTime) (rawInput : String) :
    Except LoopErr (Nat × Nat × Nat) :=
  let s := stripWs rawInput.data
  if s.contains '/' = false then .error .invalidFormat
  else
    match parseMMDDL s with
    | none => .error .invalidDate
    | some (m, d) =>
      if validMD now.year m d then
        let y :=
          if dtLTb now.year m.toNat d.toNat 0 now.year now.month now.day now.tod
          then now.year + 1 else now.year
        if validMD y m d then .ok (y, m.toNat, d.toNat) else .error .invalidDate
      else .error .invalidDate

/-- One iteration of the return-date entry loop (book.py 226–257).
`dep` is the already-validated departure date; in the source its year is
re-extracted with `int(departure_date.split('-')[0])` and the full date
re-parsed with `strptime` from the same ISO string, so both are modelled
as the one triple.  The candidate return date first uses the departure
year; if it is strictly before the departure it is retried with the
departure year + 1 (revalidated by `strptime`), and if the retried date
is still ≤ the departure the loop prints "Return date must be after
departure date." and continues. -/
def return_step (dep : Nat × Nat × Nat) (rawInput : String) :
    Except LoopErr (Nat × Nat × Nat) :=
  let s := stripWs rawInput.data
  if s.contains '/' = false then .error .invalidFormat
  else
    match parseMMDDL s with
    | none => .error .invalidDate
    | some (m, d) =>
      if validMD dep.1 m d then
        if dateLTb dep.1 m.toNat d.toNat dep.1 dep.2.1 dep.2.2 then
          if validMD (dep.1 + 1) m d then
            if dateLEb (dep.1 + 1) m.toNat d.toNat dep.1 dep.2.1 dep.2.2 then
              .error .returnBeforeDeparture
            else .ok (dep.1 + 1, m.toNat, d.toNat)
          else .error .invalidDate
        else .ok (dep.1, m.toNat, d.toNat)
      else .error .invalidDate

/-! ## Search Invoker: `book_flight` (book.py 39–183) -/

/-- The `search_parameters` dictionary built on success (book.py 169–175). -/
structure SearchParams where
  origin : String
  destination : String
  departure_date : String
  return_date : Option String
  trip_type : String
deriving DecidableEq

/-- The result dictionary of `book_flight`: `{"status": "success", ...}`
or `{"status": "error", "message": ...}`. -/
inductive BookResult
  | success (details : String) (params : SearchParams)
  | error (message : String)
deriving DecidableEq

/-- Python exceptions that escape a modelled call. -/
inductive PyExn
  | valueError
  | typeError
  | keyError (key : String)
deriving DecidableEq

instance {ε α : Type} [DecidableEq ε] [DecidableEq α] :
    DecidableEq (Except ε α) := fun a b =>
  match a, b with
  | .ok x, .ok y =>
    if h : x = y then .isTrue (by rw [h])
    else .isFalse (by intro he; cases he; exact h rfl)
  | .error x, .error y =>
    if h : x = y then .isTrue (by rw [h])
    else .isFalse (by intro he; cases he; exact h rfl)
  | .ok _, .error _ => .isFalse (by intro h; cases h)
  | .error _, .ok _ => .isFalse (by intro h; cases h)

/-- The display-formatting statements at book.py 57–58, which run BEFORE
the `try` block: `strptime` of the departure date, and of the return date
when it is truthy.  A `ValueError`/`TypeError` here propagates to the
caller. -/
def displayCheck (departure_date return_date : Option String) :
    Except PyExn Unit :=
  match departure_date with
  | none => .error .typeError
  | some dep =>
    match strptimeISO dep with
    | none => .error .valueError
    | some _ =>
      match return_date with
      | none => .ok ()
      | some r =>
        if r = "" then .ok ()
        else
          match strptimeISO r with
          | none => .error .valueError
          | some _ => .ok ()

/-- `book_flight` (book.py 39–183).  `agentOutcome` is the external
browser agent: `.ok report` models `await agent.run()` returning a
report, `.error msg` models it raising an exception whose `str` is
`msg`.  The outer `Except` layer is an exception propagating out of
`book_flight` itself (possible only from the pre-`try` display
formatting); the `try` block converts every agent exception into the
error dictionary. -/
def book_flight (agentOutcome : Except String String)
    (origin destination : String)
    (departure_date return_date : Option String) (round_trip : Bool) :
    Except PyExn BookResult :=
  match displayCheck departure_date return_date with
  | .error e => .error e
  | .ok _ =>
    match departure_date with
    | none => .error .typeError
    | some dep =>
      .ok (match agentOutcome with
        | .ok details =>
            .success details
              { origin := origin
                destination := destination
                departure_date := dep
                return_date := if round_trip then return_date else none
                trip_type := if round_trip then "round-trip" else "one-way" }
        | .error msg => .error msg)

/-! ## Chat-mode search path: `search_flights` (flight_book_chat.py 54–80) -/

/-- `search_flights`: normalize the departure date, normalize the return
date when truthy (a present-but-empty string is skipped), set
`round_trip = return_date is not None` from the RAW argument, and call
`book_flight`.  Uncaught `ValueError`s from `convert_date_format`
propagate. -/
def search_flights (now : PyDateTime) (agentOutcome : Except String String)
    (origin destination departure_date : String)
    (return_date : Option String) : Except PyExn BookResult :=
  match convert_date_format now departure_date with
  | .error _ => .error .valueError
  | .ok depF =>
    match (match return_date with
           | none => Except.ok (none : Option String)
           | some r =>
             if r = "" then Except.ok (none : Option String)
             else
               match convert_date_format now r with
               | .error _ => Except.error PyExn.valueError
               | .ok v => Except.ok v) with
    | .error e => .error e
    | .ok retF =>
      let round_trip := return_date.isSome
      book_flight agentOutcome origin destination depF retF round_trip

/-! ## Conversation Session: `FlightBookingChatbot.process_message`
(flight_book_chat.py 151–225) -/

/-- Transcript entries (`SystemMessage`/`HumanMessage`/`AIMessage`). -/
inductive ChatMsg
  | system (content : String)
  | human (content : String)
  | ai (content : String)
deriving DecidableEq

/-- The function-call arguments after `json.loads`: a JSON object whose
keys may each be absent.  `args['k']` on an absent key raises
`KeyError('k')`; `args.get('k')` returns `None`. -/
structure FBArgs where
  origin : Option String
  destination : Option String
  departure_date : Option String
  return_date : Option String
deriving DecidableEq

/-- The first LLM reply of a turn: either plain text, or a reply whose
`additional_kwargs` carry a `function_call` with the given name and
(already JSON-decoded) arguments, plus its own `content`. -/
inductive LLMResp
  | text (content : String)
  | call (name : String) (args : FBArgs) (content : String)

/-- The progress message appended before dispatching the search. -/
def progressMsg (origin destination : String) : String :=
  "I'll search for flights from " ++ origin ++ " to " ++ destination ++
    " for you. This might take a minute..."

/-- The assistant message appended when the search result is an error. -/
def searchFailMsg (msg : String) : String :=
  "I couldn't complete the flight search. Error: " ++ msg ++
    ". Please try again with different search parameters."

/-- `dict.get('return_date', 'N/A')` on the success parameters: the key is
always present, so the f-string renders the value (`None` when null). -/
def optRetStr : Option String → String
  | some r => r
  | none => "None"

/-- The summary-request prompt built from the success result
(flight_book_chat.py 185–206; source indentation elided). -/
def analysisPrompt (p : SearchParams) (details : String) : String :=
  "Analyze these flight search results and provide a concise summary:\n\n" ++
  "Search Parameters:\n" ++
  "- Origin: " ++ p.origin ++ "\n" ++
  "- Destination: " ++ p.destination ++ "\n" ++
  "- Departure Date: " ++ p.departure_date ++ "\n" ++
  "- Return Date: " ++ optRetStr p.return_date ++ "\n" ++
  "- Trip Type: " ++ p.trip_type ++ "\n\n" ++
  "Raw Flight Details:\n" ++ details ++ "\n\n" ++
  "Please extract and summarize:\n" ++
  "1. The cheapest flight option (airline, price, times)\n" ++
  "2. Any layovers or connections\n" ++
  "3. Total travel time if available\n" ++
  "4. Any notable fees or restrictions\n" ++
  "5. Your recommendation based on price and convenience\n\n" ++
  "Format your response in a clear, organized way that's easy for a traveler to understand."

/-- Observable outcome of one `process_message` call: the transcript after
the call, the returned text (or the exception that escaped), and how many
times the Search Invoker and the LLM were invoked during the turn. -/
structure PMResult where
  messages : List ChatMsg
  outcome : Except PyExn String
  searchCalls : Nat
  llmCalls : Nat
deriving DecidableEq

/-- `process_message(user_input)` (flight_book_chat.py 151–225).
`resp1` is the first LLM reply; `resp2` is the content of the summary
reply used only when a second LLM call is made.  The transcript is
mutated in place in the source, so entries appended before an exception
remain in the transcript. -/
def process_message (now : PyDateTime) (agentOutcome : Except String String)
    (st : List ChatMsg) (user_input : String)
    (resp1 : LLMResp) (resp2 : String) : PMResult :=
  let ms := st ++ [ChatMsg.human user_input]
  match resp1 with
  | .text content => ⟨ms ++ [ChatMsg.ai content], .ok content, 0, 1⟩
  | .call name args content =>
    if name = "search_flights" then
      match args.origin with
      | none => ⟨ms, .error (.keyError "origin"), 0, 1⟩
      | some o =>
        match args.destination with
        | none => ⟨ms, .error (.keyError "destination"), 0, 1⟩
        | some dst =>
          let ms := ms ++ [ChatMsg.ai (progressMsg o dst)]
          match args.departure_date with
          | none => ⟨ms, .error (.keyError "departure_date"), 0, 1⟩
          | some dd =>
            match search_flights now agentOutcome o dst dd args.return_date with
            | .error e => ⟨ms, .error e, 1, 1⟩
            | .ok (.success details params) =>
                let ms := ms ++ [ChatMsg.human (analysisPrompt params details)]
                ⟨ms ++ [ChatMsg.ai resp2], .ok resp2, 1, 2⟩
            | .ok (.error msg) =>
                ⟨ms ++ [ChatMsg.ai (searchFailMsg msg)], .ok (searchFailMsg msg), 1, 1⟩
    else ⟨ms ++ [ChatMsg.ai content], .ok content, 0, 1⟩

/-! ## Standalone run tail: result file and exit code (book.py 270–292) -/

/-- Field values of the result-file JSON object. -/
inductive JField
  | str (s : String)
  | raw (s : String)
  | params (p : SearchParams)
deriving DecidableEq

/-- The dictionary serialized by `json.dump` for each outcome. -/
def resultFields : BookResult → List (String × JField)
  | .success det p =>
      [("status", .str "success"), ("details", .raw det),
       ("search_parameters", .params p)]
  | .error m => [("status", .str "error"), ("message", .str m)]

/-- The tail of a standalone run, from the `book_flight` call onward:
`open(results_file, 'w')` truncates the file so the previous content is
fully replaced by the new object; the surrounding `try/except` catches
every exception (leaving the file untouched when `book_flight` itself
raised) and `main` returns normally, so the process exit code is 0 in
both cases. -/
def standalone_tail (prevFile : List (String × JField))
    (outcome : Except PyExn BookResult) : List (String × JField) × Nat :=
  match outcome with
  | .ok res => (resultFields res, 0)
  | .error _ => (prevFile, 0)

/-! ## Helper lemmas -/

/-- Parsing inverts the canonical two-digit rendering of a month/day pair. -/
theorem mmdd_roundtrip : ∀ m, m < 13 → ∀ d, d < 32 →
    parseMMDD (mmddRender m d) = some ((m : Int), (d : Int)) := by decide

/-- The empty string does not parse as MM/DD. -/
theorem parseMMDD_empty : parseMMDD "" = none := rfl

/-! ## C10 -/

/-- C10: for the empty string (the only falsy Python string), the
chat-mode date normalizer `convert_date_format` returns `None` (no ISO
date, no error), so a present-but-empty `return_date` is treated as
absent during normalization. -/
theorem c10_empty_none : ∀ now : PyDateTime,
    convert_date_format now "" = .ok none := by
  intro now; rfl

/-! ## C1 -/

/-- C1 counterexample: with `now = 2025-06-01` one tick past midnight and
input "06/01", the month/day equals today's calendar date, so it has NOT
yet passed this calendar year (`dateLTb 2025 6 1 2025 6 1 = false`), yet
`convert_date_format` yields next year's "2026-06-01" instead of the
claimed current-year "2025-06-01": the code compares full datetimes
(midnight of the target against the clock `now`), not calendar dates. -/
theorem c1_counterexample :
    convert_date_format ⟨2025, 6, 1, 1⟩ "06/01" = .ok (some "2026-06-01")
  ∧ dateLTb 2025 6 1 2025 6 1 = false
  ∧ "2026-06-01" ≠ "2025-06-01" := ⟨rfl, rfl, by decide⟩

/-- C1 amended: for every input that parses as MM/DD and is a valid
calendar date in the current year, normalization yields the ISO date
whose year is the current year when midnight of that month/day in the
current year is NOT strictly before `now` as a datetime, and the next
year when it is strictly before (so a month/day equal to today's date
rolls to next year whenever `now` is past midnight); and every
canonically rendered MM/DD pair parses back to itself. -/
theorem c1_amended :
    (∀ (now : PyDateTime) (s : String) (mi di : Int),
      parseMMDD s = some (mi, di) → validMD now.year mi di = true →
      convert_date_format now s =
        .ok (some (isoStr
          (if dtLTb now.year mi.toNat di.toNat 0 now.year now.month now.day now.tod
           then now.year + 1 else now.year) mi.toNat di.toNat)))
  ∧ (∀ (m d : Nat), 1 ≤ m → m ≤ 12 → 1 ≤ d → d ≤ 31 →
      parseMMDD (mmddRender m d) = some ((m : Int), (d : Int))) := by
  constructor
  · intro now s mi di hp hv
    have hs : s ≠ "" := by
      intro h
      rw [h, parseMMDD_empty] at hp
      exact Option.noConfusion hp
    unfold convert_date_format
    rw [if_neg hs]
    simp only [hp]
    rw [if_pos hv]
  · intro m d h1 h2 h3 h4
    exact mmdd_roundtrip m (by omega) d (by omega)

/-- C1 witness: with `now = 2025-06-01` (past midnight), "07/04" has not
passed and normalizes to the current-year date 2025-07-04. -/
theorem c1_witness :
    convert_date_format ⟨2025, 6, 1, 1⟩ "07/04" = .ok (some "2025-07-04") :=
  c1_amended.1 ⟨2025, 6, 1, 1⟩ "07/04" 7 4 rfl rfl

/-! ## C9 -/

/-- C9 counterexample: the input "05/15/25" contains the "/" separator and
every split component is numeric, and its leading month/day pair 05/15 is
a valid calendar date, yet normalization fails at the parse stage (the
`ValueError` of `month, day = map(int, ...)` on three components) — a
failure mode outside the two conditions the claim states. -/
theorem c9_counterexample :
    ("05/15/25".data.contains '/') = true
  ∧ ((splitOnChar '/' "05/15/25".data).all
      (fun c => (pyIntParseL c).isSome)) = true
  ∧ convert_date_format ⟨2025, 6, 1, 0⟩ "05/15/25" = .error .invalidFormat :=
  ⟨rfl, by decide, rfl⟩

/-- C9 amended: on a nonempty input the chat normalizer raises
`ValueError` at exactly two sites: at the parse statement exactly when
the input does not split on "/" into precisely two Python-int components
(no separator, three or more components, or a non-numeric component),
and at the `datetime` constructor exactly when the parsed month/day is
not a valid calendar date in the CURRENT year (validity in the next year
is never consulted); when the pair is valid in the current year it
always returns an ISO string.  On the standalone path, the "Invalid
format" retry message corresponds exactly to input without "/"; every
other failure, including non-numeric components, produces the generic
"Invalid date" retry message. -/
theorem c9_amended : ∀ (now : PyDateTime) (s : String), s ≠ "" →
    (convert_date_format now s = .error .invalidFormat ↔ parseMMDD s = none)
  ∧ (convert_date_format now s = .error .invalidCalendar ↔
      ∃ mi di, parseMMDD s = some (mi, di) ∧ validMD now.year mi di = false)
  ∧ ((∃ mi di, parseMMDD s = some (mi, di) ∧ validMD now.year mi di = true) →
      ∃ out, convert_date_format now s = .ok (some out))
  ∧ (departure_step now s = .error .invalidFormat ↔
      (stripWs s.data).contains '/' = false) := by
  intro now s hs
  have hconv : convert_date_format now s =
      (match parseMMDD s with
       | none => .error .invalidFormat
       | some (m, d) =>
         if validMD now.year m d then
           .ok (some (isoStr
             (if dtLTb now.year m.toNat d.toNat 0 now.year now.month now.day now.tod
              then now.year + 1 else now.year) m.toNat d.toNat))
         else .error .invalidCalendar) := by
    unfold convert_date_format
    rw [if_neg hs]
  refine ⟨?_, ?_, ?_, ?_⟩
  · rw [hconv]
    rcases hp : parseMMDD s with _ | ⟨mi, di⟩ <;> simp [hp]
    by_cases hv : validMD now.year mi di = true
    · simp [hv]
    · rw [Bool.not_eq_true] at hv
      simp [hv]
  · rw [hconv]
    rcases hp : parseMMDD s with _ | ⟨mi, di⟩ <;> simp [hp]
    by_cases hv : validMD now.year mi di = true
    · simp [hv]
    · rw [Bool.not_eq_true] at hv
      simp [hv]
      exact ⟨mi, di, ⟨rfl, rfl⟩, hv⟩
  · rw [hconv]
    rintro ⟨mi, di, hp, hv⟩
    rw [hp]
    simp [hv]
  · unfold departure_step
    cases hc : (stripWs s.data).contains '/'
    · rw [if_pos hc]
      simp [hc]
    · rw [if_neg (by rw [hc]; decide)]
      simp only [hc]
      constructor
      · intro h
        exfalso
        rcases hp : parseMMDDL (stripWs s.data) with _ | ⟨mi, di⟩ <;>
          simp only [hp] at h
        · simp at h
        · split_ifs at h <;> simp_all
      · intro h
        exact absurd h (by decide)

/-- C9 witness: "02/30" parses but is not a valid calendar date in the
current year, so normalization fails at the `datetime` constructor. -/
theorem c9_witness :
    convert_date_format ⟨2025, 6, 1, 0⟩ "02/30" = .error .invalidCalendar :=
  ((c9_amended ⟨2025, 6, 1, 0⟩ "02/30" (by decide)).2.1).mpr
    ⟨2, 30, rfl, rfl⟩

/-! ## More helper lemmas -/

/-- A successful `book_flight` call means the pre-`try` display formatting
passed, the departure was an actual string, the agent returned the report
verbatim, and the parameters dictionary has exactly the recorded shape. -/
theorem book_flight_ok_success {ag : Except String String} {o ds : String}
    {depO ret : Option String} {rt : Bool} {det : String} {p : SearchParams} :
    book_flight ag o ds depO ret rt = .ok (.success det p) →
    ∃ dep, depO = some dep ∧ ag = .ok det ∧
      p = ⟨o, ds, dep, if rt then ret else none,
           if rt then "round-trip" else "one-way"⟩ := by
  intro h
  rcases depO with _ | dep
  · rcases hdc : displayCheck none ret with e | u
    · simp only [book_flight, hdc] at h
      exact Except.noConfusion h
    · simp only [book_flight, hdc] at h
      exact Except.noConfusion h
  · rcases hdc : displayCheck (some dep) ret with e | u
    · simp only [book_flight, hdc] at h
      exact Except.noConfusion h
    · cases ag with
      | ok det2 =>
        simp only [book_flight, hdc, Except.ok.injEq,
          BookResult.success.injEq] at h
        exact ⟨dep, rfl, by rw [h.1], h.2.symm⟩
      | error msg =>
        simp only [book_flight, hdc, Except.ok.injEq] at h
        exact BookResult.noConfusion h

/-- On a nonempty input a successful `convert_date_format` always carries
an actual ISO string, never `None`. -/
theorem convert_ok_isSome {now : PyDateTime} {s : String} {v : Option String} :
    s ≠ "" → convert_date_format now s = .ok v → ∃ out, v = some out := by
  intro hs h
  unfold convert_date_format at h
  rw [if_neg hs] at h
  rcases hp : parseMMDD s with _ | ⟨mi, di⟩ <;> simp only [hp] at h
  · exact Except.noConfusion h
  · by_cases hv : validMD now.year mi di = true
    · rw [if_pos hv] at h
      exact ⟨_, (Except.ok.inj h).symm⟩
    · rw [if_neg hv] at h
      exact Except.noConfusion h

/-! ## C2 -/

/-- C2 counterexample: the chat-mode search path performs no
return-before-departure validation at all.  With `now = 2025-06-01`
(past midnight), departure "12/20" and return "07/04" both normalize into
2025 independently, the search proceeds to a Success whose return date
2025-07-04 is strictly BEFORE its departure date 2025-12-20, and no
`ReturnBeforeDeparture` failure occurs. -/
theorem c2_counterexample :
    search_flights ⟨2025, 6, 1, 1⟩ (.ok "report") "SFO" "JFK" "12/20"
        (some "07/04")
      = .ok (.success "report"
          ⟨"SFO", "JFK", "2025-12-20", some "2025-07-04", "round-trip"⟩)
  ∧ dateLTb 2025 7 4 2025 12 20 = true := ⟨rfl, rfl⟩

/-- C2 amended: only the standalone path compares the two dates, and its
guarantee is weaker than claimed: an accepted normalized return date is
on or AFTER the departure date (a return equal to the departure is
accepted, because the code retries only when the return is strictly
before), and the `ReturnBeforeDeparture` rejection is unreachable — the
retry with departure year + 1 always lands strictly after the departure.
The chat-mode path normalizes each date independently and never compares
them. -/
theorem c2_amended : ∀ (dep : Nat × Nat × Nat) (s : String),
    (∀ r, return_step dep s = .ok r →
      dateLEb dep.1 dep.2.1 dep.2.2 r.1 r.2.1 r.2.2 = true)
  ∧ return_step dep s ≠ .error .returnBeforeDeparture := by
  intro dep s
  obtain ⟨dy, dm, dd⟩ := dep
  constructor
  · intro r h
    unfold return_step at h
    by_cases hc : (stripWs s.data).contains '/' = false
    · rw [if_pos hc] at h
      exact Except.noConfusion h
    · rw [if_neg hc] at h
      rcases hp : parseMMDDL (stripWs s.data) with _ | ⟨mi, di⟩ <;>
        simp only [hp] at h
      · exact Except.noConfusion h
      · by_cases h1 : validMD dy mi di = true
        case neg =>
          rw [if_neg h1] at h
          exact Except.noConfusion h
        rw [if_pos h1] at h
        by_cases h2 : dateLTb dy mi.toNat di.toNat dy dm dd = true
        · rw [if_pos h2] at h
          by_cases h3 : validMD (dy + 1) mi di = true
          case neg =>
            rw [if_neg h3] at h
            exact Except.noConfusion h
          rw [if_pos h3] at h
          by_cases h4 : dateLEb (dy + 1) mi.toNat di.toNat dy dm dd = true
          · rw [if_pos h4] at h
            exact Except.noConfusion h
          · rw [if_neg h4] at h
            obtain rfl : r = (dy + 1, mi.toNat, di.toNat) :=
              (Except.ok.inj h).symm
            simp only [dateLEb, dateLTb, Bool.or_eq_true, decide_eq_true_eq]
            omega
        · rw [if_neg h2] at h
          obtain rfl : r = (dy, mi.toNat, di.toNat) := (Except.ok.inj h).symm
          simp only [dateLTb, decide_eq_true_eq, true_and,
            eq_self_iff_true] at h2
          simp only [dateLEb, dateLTb, Bool.or_eq_true, decide_eq_true_eq,
            true_and, eq_self_iff_true]
          omega
  · intro h
    unfold return_step at h
    by_cases hc : (stripWs s.data).contains '/' = false
    · rw [if_pos hc] at h
      exact absurd (Except.error.inj h) (by decide)
    · rw [if_neg hc] at h
      rcases hp : parseMMDDL (stripWs s.data) with _ | ⟨mi, di⟩ <;>
        simp only [hp] at h
      · exact absurd (Except.error.inj h) (by decide)
      · by_cases h1 : validMD dy mi di = true
        case neg =>
          rw [if_neg h1] at h
          exact absurd (Except.error.inj h) (by decide)
        rw [if_pos h1] at h
        by_cases h2 : dateLTb dy mi.toNat di.toNat dy dm dd = true
        case neg =>
          rw [if_neg h2] at h
          exact Except.noConfusion h
        rw [if_pos h2] at h
        by_cases h3 : validMD (dy + 1) mi di = true
        case neg =>
          rw [if_neg h3] at h
          exact absurd (Except.error.inj h) (by decide)
        rw [if_pos h3] at h
        by_cases h4 : dateLEb (dy + 1) mi.toNat di.toNat dy dm dd = true
        · simp only [dateLEb, dateLTb, Bool.or_eq_true, decide_eq_true_eq,
            Prod.mk.injEq] at h4
          omega
        · rw [if_neg h4] at h
          exact Except.noConfusion h

/-- C2 witness (standalone guarantee): departure 2025-07-04 with return
input "07/04" is accepted as the equal date 2025-07-04, which the amended
guarantee bounds from below by the departure. -/
theorem c2_witness :
    return_step (2025, 7, 4) "07/04" = .ok (2025, 7, 4)
  ∧ dateLEb 2025 7 4 2025 7 4 = true :=
  ⟨rfl, (c2_amended (2025, 7, 4) "07/04").1 (2025, 7, 4) rfl⟩

/-! ## C4 -/

/-- C4 counterexample: `book_flight` formats the dates for display BEFORE
its `try` block, so a departure date that is not in YYYY-MM-DD form (here
the raw short form "05/15") makes `datetime.strptime` raise `ValueError`,
which propagates to the caller instead of being returned as a Failure
record. -/
theorem c4_counterexample :
    book_flight (.ok "report") "SFO" "JFK" (some "05/15") none true
      = .error .valueError := rfl

/-- C4 amended: once the pre-`try` display formatting succeeds (the
departure date parses as YYYY-MM-DD and the return date is absent, empty,
or also parses), the search never propagates an exception: any delegate
exception yields a Failure record carrying the exception's message, and
delegate success yields a Success record wrapping the report verbatim. -/
theorem c4_amended : ∀ (ag : Except String String) (o ds dep : String)
    (ret : Option String) (rt : Bool) (y m d : Nat),
    strptimeISO dep = some (y, m, d) →
    (ret = none ∨ ret = some "" ∨
      ∃ r y2 m2 d2, ret = some r ∧ strptimeISO r = some (y2, m2, d2)) →
    (∀ e, ag = .error e →
      book_flight ag o ds (some dep) ret rt = .ok (.error e))
  ∧ (∀ det, ag = .ok det →
      book_flight ag o ds (some dep) ret rt =
        .ok (.success det
          ⟨o, ds, dep, if rt then ret else none,
           if rt then "round-trip" else "one-way"⟩)) := by
  intro ag o ds dep ret rt y m d hdep hret
  have hdisp : displayCheck (some dep) ret = .ok () := by
    rcases hret with rfl | rfl | ⟨r, y2, m2, d2, rfl, hr⟩
    · simp [displayCheck, hdep]
    · simp [displayCheck, hdep]
    · by_cases he : r = ""
      · simp [displayCheck, hdep, he]
      · simp [displayCheck, hdep, he, hr]
  constructor
  · intro e he
    subst he
    simp only [book_flight, hdisp]
  · intro det hd
    subst hd
    simp only [book_flight, hdisp]

/-- C4 witness: with well-formed dates, a delegate exception "browser
crashed" comes back as the Failure record carrying that message. -/
theorem c4_witness :
    book_flight (.error "browser crashed") "SFO" "JFK"
      (some "2025-07-04") none true = .ok (.error "browser crashed") :=
  (c4_amended (.error "browser crashed") "SFO" "JFK" "2025-07-04" none true
      2025 7 4 rfl (Or.inl rfl)).1 "browser crashed" rfl

/-! ## C5 -/

/-- C5 counterexample: on the chat-mode path, a present-but-empty
`return_date` argument makes `round_trip` true (it tests `is not None` on
the raw argument) while the normalized return date is `None` (truthiness
skips conversion), so the constructed SearchParameters has
`trip_type = "round-trip"` with no `return_date` — one without the
other. -/
theorem c5_counterexample :
    search_flights ⟨2025, 6, 1, 1⟩ (.ok "details") "SFO" "JFK" "07/04"
        (some "")
      = .ok (.success "details"
          ⟨"SFO", "JFK", "2025-07-04", none, "round-trip"⟩) := rfl

/-- C5 amended: the invariant holds for every SearchParameters built by a
`book_flight` call whose `round_trip` flag equals the presence of the
`return_date` it is passed — which the standalone path always satisfies.
On the chat-mode path, `trip_type` is "round-trip" exactly when the raw
`return_date` argument is present, while the recorded `return_date` is
absent exactly when the raw argument is absent OR present but empty; the
invariant therefore fails exactly for a present-but-empty return date. -/
theorem c5_amended :
    (∀ (ag : Except String String) (o ds : String)
        (dep ret : Option String) (rt : Bool),
      rt = ret.isSome →
      ∀ det p, book_flight ag o ds dep ret rt = .ok (.success det p) →
        (p.trip_type = "round-trip" ↔ p.return_date.isSome = true))
  ∧ (∀ (now : PyDateTime) (ag : Except String String)
        (o ds dd : String) (ret : Option String) (det : String)
        (p : SearchParams),
      search_flights now ag o ds dd ret = .ok (.success det p) →
        (p.trip_type = "round-trip" ↔ ret.isSome = true)
      ∧ (p.return_date = none ↔ (ret = none ∨ ret = some ""))) := by
  constructor
  · intro ag o ds dep ret rt hrt det p h
    obtain ⟨d2, -, -, rfl⟩ := book_flight_ok_success h
    subst hrt
    cases ret with
    | none => simp
    | some r => simp
  · intro now ag o ds dd ret det p h
    rcases ret with _ | r
    · rcases hdc : convert_date_format now dd with e | depF <;>
        simp only [search_flights, hdc] at h
      · exact Except.noConfusion h
      · obtain ⟨d2, -, -, rfl⟩ := book_flight_ok_success h
        simp
    · by_cases hr : r = ""
      · subst hr
        rcases hdc : convert_date_format now dd with e | depF <;>
          simp only [search_flights, hdc] at h
        · exact Except.noConfusion h
        · obtain ⟨d2, -, -, rfl⟩ := book_flight_ok_success h
          simp
      · rcases hdc : convert_date_format now dd with e | depF <;>
          simp only [search_flights, hdc, hr] at h
        · exact Except.noConfusion h
        · rcases hcr : convert_date_format now r with e2 | v <;>
            simp only [hcr] at h
          · exact Except.noConfusion h
          · obtain ⟨out, rfl⟩ := convert_ok_isSome hr hcr
            obtain ⟨d2, -, -, rfl⟩ := book_flight_ok_success h
            constructor
            · simp
            · simp [hr]

/-- C5 witness: a one-way `book_flight` call with no return date (the
standalone shape) satisfies the invariant. -/
theorem c5_witness :
    ((⟨"SFO", "JFK", "2025-07-04", none, "one-way"⟩ : SearchParams).trip_type
        = "round-trip"
      ↔ (⟨"SFO", "JFK", "2025-07-04", none, "one-way"⟩
          : SearchParams).return_date.isSome = true) :=
  c5_amended.1 (.ok "det") "SFO" "JFK" (some "2025-07-04") none false rfl
    "det" ⟨"SFO", "JFK", "2025-07-04", none, "one-way"⟩ rfl

/-! ## C3 -/

/-- C3 counterexample: a `search_flights` function call whose arguments
lack `origin` raises a bare `KeyError` that escapes `process_message`
(there is no `MalformedFunctionArguments` validation and no recovery):
the turn ends with the exception, no Assistant message is appended to the
transcript, and the Search Invoker is not called. -/
theorem c3_counterexample :
    process_message ⟨2025, 6, 1, 0⟩ (.ok "report") [] "find me a flight"
        (.call "search_flights" ⟨none, some "JFK", some "05/15", none⟩ "")
        "sum"
      = ⟨[ChatMsg.human "find me a flight"],
         .error (.keyError "origin"), 0, 1⟩ := rfl

/-- C3 amended: when the function-call arguments lack `origin`,
`destination`, or `departure_date`, the session raises a `KeyError`
(never a recovered validation error) before the Search Invoker is
invoked; the exception propagates out of `process_message`, and the
transcript keeps only the user message — plus the progress Assistant
message in the case where only `departure_date` is missing (the terminal
loop catches the exception, prints a console error outside the
transcript, and keeps accepting turns). -/
theorem c3_amended : ∀ (now : PyDateTime) (ag : Except String String)
    (st : List ChatMsg) (u : String) (args : FBArgs) (c r2 : String),
    (args.origin = none ∨ args.destination = none ∨
      args.departure_date = none) →
    (process_message now ag st u (.call "search_flights" args c)
        r2).searchCalls = 0
  ∧ (∃ k, (process_message now ag st u (.call "search_flights" args c)
        r2).outcome = .error (.keyError k))
  ∧ ((process_message now ag st u (.call "search_flights" args c)
        r2).messages = st ++ [ChatMsg.human u]
    ∨ ∃ o dst, args.origin = some o ∧ args.destination = some dst ∧
        (process_message now ag st u (.call "search_flights" args c)
          r2).messages
          = st ++ [ChatMsg.human u, ChatMsg.ai (progressMsg o dst)]) := by
  intro now ag st u args c r2 hmiss
  obtain ⟨ao, ad, add, ar⟩ := args
  rcases ao with _ | o
  · refine ⟨?_, ⟨"origin", ?_⟩, Or.inl ?_⟩ <;> simp [process_message]
  · rcases ad with _ | dst
    · refine ⟨?_, ⟨"destination", ?_⟩, Or.inl ?_⟩ <;> simp [process_message]
    · rcases add with _ | dd
      · refine ⟨?_, ⟨"departure_date", ?_⟩,
          Or.inr ⟨o, dst, rfl, rfl, ?_⟩⟩ <;>
          simp [process_message, List.append_assoc]
      · simp at hmiss

/-- C3 witness: a call missing only `departure_date` raises a `KeyError`
after the progress message, with the Search Invoker never called. -/
theorem c3_witness :
    (process_message ⟨2025, 6, 1, 0⟩ (.ok "x") [] "hi"
        (.call "search_flights" ⟨some "SFO", some "JFK", none, none⟩ "")
        "s").searchCalls = 0
  ∧ (∃ k, (process_message ⟨2025, 6, 1, 0⟩ (.ok "x") [] "hi"
        (.call "search_flights" ⟨some "SFO", some "JFK", none, none⟩ "")
        "s").outcome = .error (.keyError k))
  ∧ ((process_message ⟨2025, 6, 1, 0⟩ (.ok "x") [] "hi"
        (.call "search_flights" ⟨some "SFO", some "JFK", none, none⟩ "")
        "s").messages = [] ++ [ChatMsg.human "hi"]
    ∨ ∃ o dst,
        (⟨some "SFO", some "JFK", none, none⟩ : FBArgs).origin = some o
      ∧ (⟨some "SFO", some "JFK", none, none⟩ : FBArgs).destination
          = some dst
      ∧ (process_message ⟨2025, 6, 1, 0⟩ (.ok "x") [] "hi"
          (.call "search_flights" ⟨some "SFO", some "JFK", none, none⟩ "")
          "s").messages
          = [] ++ [ChatMsg.human "hi", ChatMsg.ai (progressMsg o dst)]) :=
  c3_amended ⟨2025, 6, 1, 0⟩ (.ok "x") [] "hi"
    ⟨some "SFO", some "JFK", none, none⟩ "" "s" (Or.inr (Or.inr rfl))

/-! ## C6 -/

/-- C6: when the first LLM reply requests the `search_flights` function
with full arguments and the dispatched search succeeds, the turn appends
exactly 4 transcript entries — the user message, the progress Assistant
message, the summary-request User message, and the Assistant summary —
and returns exactly the appended Assistant summary (the second LLM
reply), with the Search Invoker called once and the LLM called twice. -/
theorem c6_transcript : ∀ (now : PyDateTime) (ag : Except String String)
    (st : List ChatMsg) (u o dst dd : String) (ret : Option String)
    (c r2 det : String) (params : SearchParams),
    search_flights now ag o dst dd ret = .ok (.success det params) →
    process_message now ag st u
        (.call "search_flights" ⟨some o, some dst, some dd, ret⟩ c) r2
      = ⟨st ++ [ChatMsg.human u, ChatMsg.ai (progressMsg o dst),
           ChatMsg.human (analysisPrompt params det), ChatMsg.ai r2],
         .ok r2, 1, 2⟩
  ∧ (st ++ [ChatMsg.human u, ChatMsg.ai (progressMsg o dst),
       ChatMsg.human (analysisPrompt params det), ChatMsg.ai r2]).length
      = st.length + 4 := by
  intro now ag st u o dst dd ret c r2 det params h
  constructor
  · simp [process_message, h, List.append_assoc]
  · simp

/-- C6 witness: a concrete successful round-trip search turn appends the
four entries and returns the summary. -/
theorem c6_transcript_witness :
    process_message ⟨2025, 6, 1, 1⟩ (.ok "details") [] "hi"
        (.call "search_flights"
          ⟨some "SFO", some "JFK", some "07/04", some "07/11"⟩ "") "sum"
      = ⟨[ChatMsg.human "hi", ChatMsg.ai (progressMsg "SFO" "JFK"),
          ChatMsg.human (analysisPrompt
            ⟨"SFO", "JFK", "2025-07-04", some "2025-07-11", "round-trip"⟩
            "details"),
          ChatMsg.ai "sum"], .ok "sum", 1, 2⟩
  ∧ ([ChatMsg.human "hi", ChatMsg.ai (progressMsg "SFO" "JFK"),
      ChatMsg.human (analysisPrompt
        ⟨"SFO", "JFK", "2025-07-04", some "2025-07-11", "round-trip"⟩
        "details"),
      ChatMsg.ai "sum"]).length = 0 + 4 :=
  c6_transcript ⟨2025, 6, 1, 1⟩ (.ok "details") [] "hi" "SFO" "JFK" "07/04"
    (some "07/11") "" "sum" "details"
    ⟨"SFO", "JFK", "2025-07-04", some "2025-07-11", "round-trip"⟩ rfl

/-! ## C7 -/

/-- C7: when the dispatched search returns a Failure, the session appends
one Assistant message embedding the failure reason, returns exactly that
text, and makes no second LLM call (one LLM call total; the result is
independent of what a second reply would have been). -/
theorem c7_failure_reply : ∀ (now : PyDateTime) (ag : Except String String)
    (st : List ChatMsg) (u o dst dd : String) (ret : Option String)
    (c r2 msg : String),
    search_flights now ag o dst dd ret = .ok (.error msg) →
    process_message now ag st u
        (.call "search_flights" ⟨some o, some dst, some dd, ret⟩ c) r2
      = ⟨st ++ [ChatMsg.human u, ChatMsg.ai (progressMsg o dst),
           ChatMsg.ai (searchFailMsg msg)],
         .ok (searchFailMsg msg), 1, 1⟩
  ∧ ∀ r2a, process_message now ag st u
        (.call "search_flights" ⟨some o, some dst, some dd, ret⟩ c) r2a
      = process_message now ag st u
        (.call "search_flights" ⟨some o, some dst, some dd, ret⟩ c) r2 := by
  intro now ag st u o dst dd ret c r2 msg h
  constructor
  · simp [process_message, h, List.append_assoc]
  · intro r2a
    simp [process_message, h]

/-- C7 witness: a delegate exception "boom" surfaces as the Failure
message inside the single appended Assistant reply. -/
theorem c7_failure_reply_witness :
    process_message ⟨2025, 6, 1, 1⟩ (.error "boom") [] "hi"
        (.call "search_flights"
          ⟨some "SFO", some "JFK", some "07/04", none⟩ "") "sum"
      = ⟨[ChatMsg.human "hi", ChatMsg.ai (progressMsg "SFO" "JFK"),
          ChatMsg.ai (searchFailMsg "boom")],
         .ok (searchFailMsg "boom"), 1, 1⟩ :=
  (c7_failure_reply ⟨2025, 6, 1, 1⟩ (.error "boom") [] "hi" "SFO" "JFK"
    "07/04" none "" "sum" "boom" rfl).1

/-! ## C8 -/

/-- C8: after a standalone run whose search fails, the result file holds
exactly the object with the two keys "status" (= "error") and "message"
(= the failure text), with no "search_parameters" key; the previous file
content is fully replaced regardless of what it was; and the run exits
with code 0. -/
theorem c8_result_file : ∀ (prev : List (String × JField)) (m : String),
    standalone_tail prev (.ok (.error m))
      = ([("status", JField.str "error"), ("message", JField.str m)], 0)
  ∧ ((standalone_tail prev (.ok (.error m))).1.map Prod.fst
      = ["status", "message"])
  ∧ ((standalone_tail prev (.ok (.error m))).1.map Prod.fst).contains
        "search_parameters" = false
  ∧ ∀ prev2, standalone_tail prev (.ok (.error m))
      = standalone_tail prev2 (.ok (.error m)) := by
  intro prev m
  exact ⟨rfl, rfl, rfl, fun prev2 => rfl⟩
